import Mathlib

/-!
Shallow embedding of `ddtrace/_opentelemetry/trace.py`: the OpenTelemetry
bridge `TracerProvider` / `Tracer` built on top of the Datadog tracer.
The bridge code itself (active-span classification, foreign-span
conversion, span creation and the activation scope) is translated from the
source file; the collaborators that the source only calls into (the native
Datadog tracer, the bridge `Span` wrapper, the OpenTelemetry context
helpers) are modelled from the specification, as marked on each
definition.
-/

/-- Modelled from the spec: the single well-known metadata key under which
vendor trace-state is carried (`ddtrace.internal.constants.W3C_TRACESTATE_KEY`,
which is not under `src/`). -/
def W3C_TRACESTATE_KEY : String := "tracestate"

/-- The `TraceFlags.SAMPLED` flag value of the OpenTelemetry API (`0x01`). -/
def TraceFlags.SAMPLED : Nat := 1

/-- Modelled from the spec: serialization of a trace-state into the
standardized header string (`opentelemetry` `TraceState.to_header`, which is
not under `src/`): entries are rendered `key=value` and joined with commas,
in order, with no re-encoding. -/
def TraceState.to_header (ts : List (String × String)) : String :=
  String.intercalate "," (ts.map fun p => p.1 ++ "=" ++ p.2)

/-- Span context of a foreign OpenTelemetry span as read by
`get_span_context()`: trace id, span id, trace flags, and the trace-state
entries (an absent trace-state is the empty list, matching the library's
always-present but possibly empty `TraceState`). -/
structure OtelSpanContext where
  trace_id : Nat
  span_id : Nat
  trace_flags : Nat
  trace_state : List (String × String)
deriving DecidableEq

/-- Modelled from the spec: the external API's notion of a sampled span -
the sampled bit (bit 0) of the trace flags is set. -/
def OtelSpanContext.is_sampled (c : OtelSpanContext) : Bool :=
  c.trace_flags.testBit 0

/-- Handle to one live native Datadog span object; its identity is its
span id, allocated freshly by the native tracer. -/
structure DDSpan where
  span_id : Nat
  trace_id : Nat
deriving DecidableEq

/-- The `ddtrace.context.Context` propagation value as built at
`trace.py` lines 90-93: ids, a numeric sampling priority, and optional
metadata. -/
structure DDContext where
  trace_id : Nat
  span_id : Nat
  sampling_priority : Nat
  meta : Option (List (String × String))
deriving DecidableEq

/-- The value passed as `child_of` to the native tracer: either a live
Datadog span object (identity-preserving parenting) or a propagation
`Context` re-derived from ids. -/
inductive DDActive where
  | span (sp : DDSpan)
  | ctx (c : DDContext)
deriving DecidableEq

/-- The Python error raised when a local variable is read on a path where
it was never assigned. -/
inductive PyError where
  | unboundLocalError
deriving DecidableEq

/-- An exception travelling through an activated scope: either a user
exception raised by the body (identified by its payload) or a Python
error coming from the bridge itself. -/
inductive Exc where
  | user (e : Nat)
  | py (err : PyError)
deriving DecidableEq

/-- OpenTelemetry span kinds. -/
inductive SpanKind where
  | internal
  | server
  | client
  | producer
  | consumer
deriving DecidableEq

/-- Modelled from the spec: the bridge `Span` wrapper
(`ddtrace/_opentelemetry/span.py`, which is not under `src/`): it
exclusively owns one native span handle (`_ddspan`, the field name visible
at `trace.py` line 86) and keeps the constructor arguments passed through
by `start_span`. -/
structure Span where
  _ddspan : DDSpan
  kind : SpanKind
  attributes : Option (List (String × String))
  start_time : Option Int
  record_exception : Bool
  set_status_on_exception : Bool
deriving DecidableEq

/-- The object resolved as the currently active span: the `INVALID_SPAN`
sentinel, a `Span` created by this bridge, a recognized foreign
OpenTelemetry span (exposing its span context), or an unrecognized object
(kept as its representation string). -/
inductive ActiveOtel where
  | invalid
  | bridge (w : Span)
  | foreign (c : OtelSpanContext)
  | unrecognized (r : String)
deriving DecidableEq

/-- An explicit OpenTelemetry `Context` value carrying an active span. -/
structure OtelContext where
  active : ActiveOtel
deriving DecidableEq

/-- Modelled from the spec: active-span lookup (`get_current_span`): the
span of the explicitly supplied context when one is given, otherwise the
implicit current one. -/
def get_current_span (context : Option OtelContext) (current : ActiveOtel) : ActiveOtel :=
  match context with
  | some c => c.active
  | none => current

/-- State record of one native Datadog span: its identity, the parentage
value it was created with, and the mutable fields touched by the wrapper
operations (finish flag, error status, recorded exceptions). -/
structure DDSpanRec where
  span_id : Nat
  trace_id : Nat
  name : String
  child_of : Option DDActive
  finished : Bool
  error : Bool
  recorded_exceptions : List Exc
deriving DecidableEq

/-- State of the native Datadog tracer: the fresh-id counter, the spans it
has created so far, and its own currently-activated span id. -/
structure TracerSt where
  nextId : Nat
  spans : List DDSpanRec
  ddActive : Option Nat
deriving DecidableEq

/-- The trace id a new native span inherits from its `child_of` value; a
root span starts a fresh trace. -/
def child_trace_id (child_of : Option DDActive) (fresh : Nat) : Nat :=
  match child_of with
  | none => fresh
  | some (DDActive.span sp) => sp.trace_id
  | some (DDActive.ctx c) => c.trace_id

/-- Modelled from the spec: the native tracer's
`start_span(name, child_of, activate)` (the core `ddtrace` tracer, which is
not under `src/`): it creates exactly one span record parented by the
given `child_of` value, and marks it as the tracer's active span only when
`activate` is true. -/
def ddtrace_start_span (st : TracerSt) (name : String) (child_of : Option DDActive)
    (activate : Bool) : DDSpan × TracerSt :=
  let sid := st.nextId
  let tid := child_trace_id child_of st.nextId
  let rec0 : DDSpanRec :=
    { span_id := sid, trace_id := tid, name := name, child_of := child_of,
      finished := false, error := false, recorded_exceptions := [] }
  (DDSpan.mk sid tid,
   { nextId := sid + 1, spans := st.spans ++ [rec0],
     ddActive := if activate then some sid else st.ddActive })

/-- The diagnostic log entry produced at `trace.py` lines 95-100 for an
unsupported active span, carrying the object's representation. -/
def unsupported_span_log (r : String) : String :=
  "Programming Error: The current active Span is not supported by ddtrace. The following span will not have a parent: " ++ r

/-- Foreign-span conversion of `trace.py` lines 90-93: unpack the foreign
span context, map the trace flags to a sampling priority (`1` exactly on
the `SAMPLED` value, `0` otherwise), and carry a non-empty trace-state
verbatim under the well-known key (a falsy, i.e. empty, trace-state yields
no metadata). -/
def foreign_span_to_context (c : OtelSpanContext) : DDContext :=
  { trace_id := c.trace_id
    span_id := c.span_id
    sampling_priority := if c.trace_flags = TraceFlags.SAMPLED then 1 else 0
    meta := if c.trace_state = [] then none
            else some [(W3C_TRACESTATE_KEY, TraceState.to_header c.trace_state)] }

/-- Classification of the resolved active span into the `child_of` value,
following `trace.py` lines 81-100. In the unrecognized branch the source
logs and then reads the local `dd_active`, which was never assigned on
that path, so the call fails with `UnboundLocalError`. -/
def resolve_dd_active : ActiveOtel → Except PyError (Option DDActive) × List String
  | ActiveOtel.invalid => (Except.ok none, [])
  | ActiveOtel.bridge w => (Except.ok (some (DDActive.span w._ddspan)), [])
  | ActiveOtel.foreign c => (Except.ok (some (DDActive.ctx (foreign_span_to_context c))), [])
  | ActiveOtel.unrecognized r =>
      (Except.error PyError.unboundLocalError, [unsupported_span_log r])

/-- The `child_of` value that `start_span` derives for each recognized
active-span case (none for the unrecognized case, which raises instead). -/
def ddParentOf : ActiveOtel → Option DDActive
  | ActiveOtel.invalid => none
  | ActiveOtel.bridge w => some (DDActive.span w._ddspan)
  | ActiveOtel.foreign c => some (DDActive.ctx (foreign_span_to_context c))
  | ActiveOtel.unrecognized _ => none

/-- The bridge `Tracer` object of `trace.py` lines 58-64: it holds the
reference to the Datadog tracer it delegates to. -/
structure Tracer where
  _tracer : Nat
deriving DecidableEq

/-- The bridge `TracerProvider` of `trace.py` lines 37-45: it holds one
reference to the global Datadog tracer. -/
structure TracerProvider where
  _ddtracer : Nat
deriving DecidableEq

/-- `get_tracer` of `trace.py` lines 47-55: the three parameters are
accepted and ignored; the result is a `Tracer` over the provider's Datadog
tracer reference. -/
def TracerProvider.get_tracer (self : TracerProvider) (instrumenting_module_name : String)
    (instrumenting_library_version : Option String) (schema_url : Option String) : Tracer :=
  Tracer.mk self._ddtracer

/-- `start_span` of `trace.py` lines 66-110: resolve the active span,
classify it into a `child_of` value, create exactly one native span with
`activate=False`, and wrap it passing through kind, attributes, start
time and the two exception flags (`links` is accepted and unused). The
result is either the wrapper plus the updated native-tracer state, or the
Python error of the unrecognized branch; the emitted log entries are
returned alongside. -/
def Tracer.start_span (st : TracerSt) (context : Option OtelContext) (current : ActiveOtel)
    (name : String) (kind : SpanKind) (attributes : Option (List (String × String)))
    (links : Option (List Nat)) (start_time : Option Int)
    (record_exception : Bool) (set_status_on_exception : Bool) :
    Except PyError (Span × TracerSt) × List String :=
  match resolve_dd_active (get_current_span context current) with
  | (Except.error pe, lgs) => (Except.error pe, lgs)
  | (Except.ok dd_active, lgs) =>
      let r := ddtrace_start_span st name dd_active false
      (Except.ok (Span.mk r.1 kind attributes start_time record_exception set_status_on_exception,
                  r.2), lgs)

/-- Whether the resolved active span falls into the unrecognized branch of
`start_span`. -/
def ActiveOtel.isUnrecognized : ActiveOtel → Bool
  | ActiveOtel.unrecognized _ => true
  | _ => false

/-- Combined state of one execution context using the bridge: the native
tracer state, the stack of activated bridge spans (head is innermost), the
active span underneath all bridge scopes, the log, and a ghost trace of
creation events `(span id, active span at creation)` used only to state
parenting properties. -/
structure BridgeState where
  tracer : TracerSt
  stack : List Span
  base : ActiveOtel
  logs : List String
  events : List (Nat × ActiveOtel)
deriving DecidableEq

/-- The currently active span of an execution context: the innermost
activated bridge span, or the base active span when no scope is open. -/
def currentActive (s : BridgeState) : ActiveOtel :=
  match s.stack with
  | w :: _ => ActiveOtel.bridge w
  | [] => s.base

/-- Lookup of a native span record by id. -/
def lookupSpan (i : Nat) (t : TracerSt) : Option DDSpanRec :=
  t.spans.find? fun r => r.span_id == i

/-- Pointwise update of the native span record with the given id. -/
def updateSpan (i : Nat) (f : DDSpanRec → DDSpanRec) (t : TracerSt) : TracerSt :=
  { t with spans := t.spans.map fun r => if r.span_id == i then f r else r }

/-- Record-an-exception update on a span record. -/
def fRecord (e : Exc) (r : DDSpanRec) : DDSpanRec :=
  { r with recorded_exceptions := r.recorded_exceptions ++ [e] }

/-- Mark-status-error update on a span record. -/
def fError (r : DDSpanRec) : DDSpanRec :=
  { r with error := true }

/-- Finish update on a span record (idempotent). -/
def fFinish (r : DDSpanRec) : DDSpanRec :=
  { r with finished := true }

/-- Modelled from the spec: the wrapper's exception recorder - attach the
exception to the owned native span. -/
def record_exc (w : Span) (e : Exc) (s : BridgeState) : BridgeState :=
  { s with tracer := updateSpan w._ddspan.span_id (fRecord e) s.tracer }

/-- Modelled from the spec: the wrapper's status setter - mark the owned
native span's status as error. -/
def set_error (w : Span) (s : BridgeState) : BridgeState :=
  { s with tracer := updateSpan w._ddspan.span_id fError s.tracer }

/-- Modelled from the spec: the wrapper's end operation - finish the owned
native span (a no-op when already finished). -/
def end_span (w : Span) (s : BridgeState) : BridgeState :=
  { s with tracer := updateSpan w._ddspan.span_id fFinish s.tracer }

/-- Mark the given bridge span active on top of the context stack. -/
def push_active (w : Span) (s : BridgeState) : BridgeState :=
  { s with stack := w :: s.stack }

/-- Scope-exit bookkeeping on the exceptional path: attach the exception
when `record_exception` is set, mark error status when
`set_status_on_exception` is set, then end the span when `end_on_exit` is
set, in the spec's order. -/
def on_exc (w : Span) (record_exception set_status_on_exception end_on_exit : Bool)
    (e : Exc) (s2 : BridgeState) : BridgeState :=
  let s3 := if record_exception then record_exc w e s2 else s2
  let s4 := if set_status_on_exception then set_error w s3 else s3
  if end_on_exit then end_span w s4 else s4

/-- Scope-exit bookkeeping on the normal path: end the span when
`end_on_exit` is set. -/
def on_ok (w : Span) (end_on_exit : Bool) (s2 : BridgeState) : BridgeState :=
  if end_on_exit then end_span w s2 else s2

/-- Modelled from the spec: the activation scope (`opentelemetry`
`use_span`, which is not under `src/`, per spec section 4.2): mark the
span active for the duration of the body; on an exception, attach it when
`record_exception` is set and mark error status when
`set_status_on_exception` is set; end the span on exit when `end_on_exit`
is set; unconditionally restore the previously active span; re-raise the
body's exception unchanged. -/
def use_span (w : Span) (end_on_exit record_exception set_status_on_exception : Bool)
    (body : BridgeState → BridgeState × Option Exc) (s : BridgeState) :
    BridgeState × Option Exc :=
  match body (push_active w s) with
  | (s2, none) =>
      ({ on_ok w end_on_exit s2 with stack := s.stack, base := s.base }, none)
  | (s2, some e) =>
      ({ on_exc w record_exception set_status_on_exception end_on_exit e s2 with
          stack := s.stack, base := s.base }, some e)

/-- The state right after `start_as_current_span`'s internal `start_span`
call returned the wrapper `w` with tracer state `ts'` and logs `lgs`: the
tracer state is adopted, the logs appended, and a ghost creation event is
recorded pairing the new span id with the active span at creation. -/
def after_start (s : BridgeState) (w : Span) (ts' : TracerSt) (lgs : List String) :
    BridgeState :=
  { s with tracer := ts', logs := s.logs ++ lgs,
           events := s.events ++ [(w._ddspan.span_id, currentActive s)] }

/-- `start_as_current_span` of `trace.py` lines 112-145: create a new
non-active wrapper via `start_span`, then run the body inside `use_span`
with the same `record_exception` / `set_status_on_exception` flags plus
`end_on_exit`. An error from `start_span` propagates as an exception
before any scope is entered. -/
def Tracer.start_as_current_span (s : BridgeState) (context : Option OtelContext)
    (name : String) (kind : SpanKind) (attributes : Option (List (String × String)))
    (links : Option (List Nat)) (start_time : Option Int)
    (record_exception set_status_on_exception end_on_exit : Bool)
    (body : BridgeState → BridgeState × Option Exc) : BridgeState × Option Exc :=
  match Tracer.start_span s.tracer context (currentActive s) name kind attributes links
      start_time record_exception set_status_on_exception with
  | (Except.error pe, lgs) => ({ s with logs := s.logs ++ lgs }, some (Exc.py pe))
  | (Except.ok (w, ts'), lgs) =>
      use_span w end_on_exit record_exception set_status_on_exception body
        (after_start s w ts' lgs)

/-- Programs over the bridge within one execution context: nothing,
raising a user exception, sequencing, and a `start_as_current_span` scope
around a body. -/
inductive Prog where
  | skip
  | throw (e : Nat)
  | seq (p q : Prog)
  | nest (name : String) (record_exception set_status_on_exception end_on_exit : Bool)
      (body : Prog)

/-- Execution of a program: `nest` runs `start_as_current_span` with the
program body; `seq` stops at the first exception, which propagates. -/
def exec : Prog → BridgeState → BridgeState × Option Exc
  | Prog.skip, s => (s, none)
  | Prog.throw e, s => (s, some (Exc.user e))
  | Prog.seq p q, s =>
      match exec p s with
      | (s', none) => exec q s'
      | (s', some e) => (s', some e)
  | Prog.nest name re sse eoe body, s =>
      Tracer.start_as_current_span s none name SpanKind.internal none none none
        re sse eoe (exec body)

/-- Well-formedness of a bridge state: every native span record's id is
below the tracer's fresh-id counter. -/
def StateWF (s : BridgeState) : Prop :=
  ∀ r ∈ s.tracer.spans, r.span_id < s.tracer.nextId

/-- Parenting correctness of the ghost creation events: every recorded
creation `(i, a)` has a native span record with id `i` whose stored
`child_of` is exactly the parent derived from the active span `a` seen at
creation time. -/
def EventsOK (s : BridgeState) : Prop :=
  ∀ ev ∈ s.events, ∃ r, lookupSpan ev.1 s.tracer = some r ∧ r.child_of = ddParentOf ev.2

/-- The initial native tracer state. -/
def initTracer : TracerSt :=
  { nextId := 1, spans := [], ddActive := none }

/-- A fresh execution-context state with no active span. -/
def initBridgeState : BridgeState :=
  { tracer := initTracer, stack := [], base := ActiveOtel.invalid, logs := [], events := [] }

/-- Concrete foreign span context whose trace flags set the sampled bit
together with another bit (value 3). -/
def c3_foreign : OtelSpanContext :=
  { trace_id := 11, span_id := 22, trace_flags := 3, trace_state := [] }

/-- Concrete foreign span context with flags value 5 (sampled bit set
among others) and a vendor trace-state. -/
def c6_foreign : OtelSpanContext :=
  { trace_id := 7, span_id := 8, trace_flags := 5, trace_state := [("vendor", "value")] }

/-- Concrete foreign span context used in the C6 witness: sampled flags
and the vendor trace-state `vendor=value`. -/
def c6w : OtelSpanContext :=
  { trace_id := 1, span_id := 2, trace_flags := 1, trace_state := [("vendor", "value")] }

/-- C1: the spec says an unrecognized active span is non-fatal - `start_span`
logs the object's representation and returns a root span. The code does
produce the diagnostic log entry, but then raises `UnboundLocalError`:
the `else` branch of `trace.py` lines 94-100 never assigns `dd_active`,
which line 102 then reads. This theorem evaluates the embedded code on
every unrecognized active object: the call fails instead of returning a
parentless span. -/
theorem claim_C1_unrecognized_active_logs_then_raises (st : TracerSt) (r : String)
    (name : String) (kind : SpanKind) (attributes : Option (List (String × String)))
    (links : Option (List Nat)) (start_time : Option Int) (re sse : Bool) :
    Tracer.start_span st none (ActiveOtel.unrecognized r) name kind attributes links
        start_time re sse
      = (Except.error PyError.unboundLocalError, [unsupported_span_log r]) := rfl

/-- C9: `get_tracer` ignores the instrumenting-module name, library version
and schema-url arguments - any two calls on one provider return equal
`Tracer`s - and every returned `Tracer` holds the provider's own native
tracer reference. -/
theorem claim_C9_get_tracer_params_irrelevant (p : TracerProvider) (m m' : String)
    (v v' u u' : Option String) :
    p.get_tracer m v u = p.get_tracer m' v' u' ∧
    (p.get_tracer m v u)._tracer = p._ddtracer :=
  ⟨rfl, rfl⟩

/-- C7: when the resolved active span is the invalid-span sentinel,
`start_span` succeeds and the one native span it creates has no parent
(`child_of` is none): a root span. -/
theorem claim_C7_no_active_span_yields_root (st : TracerSt) (name : String) (kind : SpanKind)
    (attributes : Option (List (String × String))) (links : Option (List Nat))
    (start_time : Option Int) (re sse : Bool) :
    ∃ w ts' rec0,
      Tracer.start_span st none ActiveOtel.invalid name kind attributes links start_time re sse
        = (Except.ok (w, ts'), []) ∧
      ts'.spans = st.spans ++ [rec0] ∧
      w._ddspan.span_id = rec0.span_id ∧
      rec0.child_of = none :=
  ⟨_, _, _, rfl, rfl, rfl, rfl⟩

/-- C5: when the active span is a `Span` created by this bridge, the new
native span's `child_of` is the live-span value holding exactly the active
wrapper's owned native span handle (the `DDActive.span` constructor, not a
`DDActive.ctx` re-derived from ids). -/
theorem claim_C5_bridge_parenting_identity (st : TracerSt) (wA : Span) (name : String)
    (kind : SpanKind) (attributes : Option (List (String × String)))
    (links : Option (List Nat)) (start_time : Option Int) (re sse : Bool) :
    ∃ wB ts' rec0,
      Tracer.start_span st none (ActiveOtel.bridge wA) name kind attributes links start_time re sse
        = (Except.ok (wB, ts'), []) ∧
      ts'.spans = st.spans ++ [rec0] ∧
      wB._ddspan.span_id = rec0.span_id ∧
      rec0.child_of = some (DDActive.span wA._ddspan) :=
  ⟨_, _, _, rfl, rfl, rfl, rfl⟩

/-- C10: in the foreign-span conversion the sampling priority is 1 exactly
when the trace flags are identically the SAMPLED value (0 for every other
value, including values with the sampled bit set among others), and a
trace-state metadata entry exists exactly when the trace-state is
non-empty - an empty trace-state yields no entry, like an absent one. -/
theorem claim_C10_exact_flag_match_and_truthy_tracestate (c : OtelSpanContext) :
    ((foreign_span_to_context c).sampling_priority = 1 ↔ c.trace_flags = TraceFlags.SAMPLED) ∧
    ((foreign_span_to_context c).sampling_priority
        = if c.trace_flags = TraceFlags.SAMPLED then 1 else 0) ∧
    ((foreign_span_to_context c).meta = none ↔ c.trace_state = []) ∧
    ((foreign_span_to_context c).meta
        = if c.trace_state = [] then none
          else some [(W3C_TRACESTATE_KEY, TraceState.to_header c.trace_state)]) := by
  unfold foreign_span_to_context
  refine ⟨?_, rfl, ?_, rfl⟩ <;> split <;> simp_all

/-- C3 counterexample: a foreign span whose trace flags are 3 (the sampled
bit set together with another bit) is sampled in the external API's sense,
yet the conversion maps it to sampling priority 0, not 1: the claim's
sampled-to-1 mapping fails on it. -/
theorem claim_C3_counterexample :
    c3_foreign.is_sampled = true ∧
    (foreign_span_to_context c3_foreign).sampling_priority = 0 := by
  exact ⟨by decide, by decide⟩

/-- C3 amended: for every foreign active span, `start_span` derives the
parent as a propagation context whose sampling priority is 1 exactly when
the trace flags equal the SAMPLED value (0 for any other flags value, even
a sampled one), and whose metadata carries the vendor trace-state verbatim
under the well-known key when the trace-state is non-empty, with no
metadata written otherwise. -/
theorem claim_C3_amended_foreign_parent_context (st : TracerSt) (c : OtelSpanContext)
    (name : String) (kind : SpanKind) (attributes : Option (List (String × String)))
    (links : Option (List Nat)) (start_time : Option Int) (re sse : Bool) :
    ∃ w ts' rec0,
      Tracer.start_span st none (ActiveOtel.foreign c) name kind attributes links start_time re sse
        = (Except.ok (w, ts'), []) ∧
      ts'.spans = st.spans ++ [rec0] ∧
      rec0.child_of = some (DDActive.ctx
        { trace_id := c.trace_id, span_id := c.span_id,
          sampling_priority := if c.trace_flags = TraceFlags.SAMPLED then 1 else 0,
          meta := if c.trace_state = [] then none
                  else some [(W3C_TRACESTATE_KEY, TraceState.to_header c.trace_state)] }) :=
  ⟨_, _, _, rfl, rfl, rfl⟩

/-- C6 counterexample: a foreign span with vendor trace-state
`vendor=value` and flags 5 - sampled in the external API's sense - gets
sampling priority 0, not the claimed 1 (the trace-state itself is still
carried byte-for-byte). -/
theorem claim_C6_counterexample :
    c6_foreign.is_sampled = true ∧
    (foreign_span_to_context c6_foreign).sampling_priority = 0 ∧
    (foreign_span_to_context c6_foreign).meta
      = some [(W3C_TRACESTATE_KEY, "vendor=value")] := by
  exact ⟨by decide, by decide, by decide⟩

/-- C6 amended: for every foreign span whose trace flags are exactly the
SAMPLED value and whose trace-state is non-empty, the derived parent
context has sampling priority 1 and its trace-state metadata value is the
serialized trace-state header string itself, unchanged. -/
theorem claim_C6_amended_sampled_roundtrip (st : TracerSt) (c : OtelSpanContext)
    (name : String) (kind : SpanKind) (attributes : Option (List (String × String)))
    (links : Option (List Nat)) (start_time : Option Int) (re sse : Bool)
    (hs : c.trace_flags = TraceFlags.SAMPLED) (hts : c.trace_state ≠ []) :
    ∃ w ts' rec0,
      Tracer.start_span st none (ActiveOtel.foreign c) name kind attributes links start_time re sse
        = (Except.ok (w, ts'), []) ∧
      ts'.spans = st.spans ++ [rec0] ∧
      rec0.child_of = some (DDActive.ctx
        { trace_id := c.trace_id, span_id := c.span_id, sampling_priority := 1,
          meta := some [(W3C_TRACESTATE_KEY, TraceState.to_header c.trace_state)] }) := by
  refine ⟨_, _, _, rfl, rfl, ?_⟩
  simp [foreign_span_to_context, hs, hts]

/-- C6 witness: the amended theorem applied to a concrete sampled foreign
span carrying `vendor=value`; the metadata value is exactly the string
`vendor=value` under the key `tracestate`. -/
theorem claim_C6_witness :
    (c6w.trace_flags = TraceFlags.SAMPLED ∧ c6w.trace_state ≠ []) ∧
    (∃ w ts' rec0,
      Tracer.start_span initTracer none (ActiveOtel.foreign c6w) "work" SpanKind.internal
          none none none true true
        = (Except.ok (w, ts'), []) ∧
      ts'.spans = initTracer.spans ++ [rec0] ∧
      rec0.child_of = some (DDActive.ctx
        { trace_id := c6w.trace_id, span_id := c6w.span_id, sampling_priority := 1,
          meta := some [(W3C_TRACESTATE_KEY, TraceState.to_header c6w.trace_state)] })) :=
  ⟨⟨rfl, by decide⟩,
   claim_C6_amended_sampled_roundtrip initTracer c6w "work" SpanKind.internal
     none none none true true rfl (by decide)⟩

/-- C8 counterexample: a concrete call whose resolved active span is an
unrecognized object returns the `UnboundLocalError` failure, so it creates
and returns no span at all: the claim's every-call guarantee fails on it. -/
theorem claim_C8_counterexample :
    (Tracer.start_span initTracer none (ActiveOtel.unrecognized "MyObject") "work"
        SpanKind.internal none none none true true).1
      = Except.error PyError.unboundLocalError := rfl

/-- C8 amended: every `start_span` call whose resolved active span is
recognized (sentinel, bridge span, or foreign span) creates exactly one
native span - parented by the resolved case's `child_of` value and not
activated - and returns a wrapper receiving kind, attributes, start time
and the two exception flags unchanged; a call resolving to an unrecognized
object raises before any span is created. -/
theorem claim_C8_amended_single_unactivated_span (st : TracerSt) (context : Option OtelContext)
    (current : ActiveOtel) (name : String) (kind : SpanKind)
    (attributes : Option (List (String × String))) (links : Option (List Nat))
    (start_time : Option Int) (re sse : Bool)
    (h : (get_current_span context current).isUnrecognized = false) :
    ∃ w ts' rec0,
      Tracer.start_span st context current name kind attributes links start_time re sse
        = (Except.ok (w, ts'), []) ∧
      ts'.spans = st.spans ++ [rec0] ∧
      ts'.nextId = st.nextId + 1 ∧
      ts'.ddActive = st.ddActive ∧
      rec0.span_id = st.nextId ∧
      rec0.name = name ∧
      rec0.child_of = ddParentOf (get_current_span context current) ∧
      rec0.finished = false ∧
      rec0.error = false ∧
      rec0.recorded_exceptions = [] ∧
      w._ddspan.span_id = rec0.span_id ∧
      w.kind = kind ∧
      w.attributes = attributes ∧
      w.start_time = start_time ∧
      w.record_exception = re ∧
      w.set_status_on_exception = sse := by
  rcases hcur : get_current_span context current with _ | w0 | c0 | r0
  · rw [Tracer.start_span, hcur]
    exact ⟨_, _, _, rfl, rfl, rfl, rfl, rfl, rfl, rfl, rfl, rfl, rfl, rfl, rfl, rfl, rfl, rfl, rfl⟩
  · rw [Tracer.start_span, hcur]
    exact ⟨_, _, _, rfl, rfl, rfl, rfl, rfl, rfl, rfl, rfl, rfl, rfl, rfl, rfl, rfl, rfl, rfl, rfl⟩
  · rw [Tracer.start_span, hcur]
    exact ⟨_, _, _, rfl, rfl, rfl, rfl, rfl, rfl, rfl, rfl, rfl, rfl, rfl, rfl, rfl, rfl, rfl, rfl⟩
  · rw [hcur] at h
    simp [ActiveOtel.isUnrecognized] at h

/-- C8 witness: the amended theorem applied at a concrete top-level call
with no active span. -/
theorem claim_C8_witness :
    (ActiveOtel.invalid.isUnrecognized = false) ∧
    (∃ w ts' rec0,
      Tracer.start_span initTracer none ActiveOtel.invalid "job" SpanKind.client
          (some [("k", "v")]) none (some 9) false true
        = (Except.ok (w, ts'), []) ∧
      ts'.spans = initTracer.spans ++ [rec0] ∧
      ts'.nextId = initTracer.nextId + 1 ∧
      ts'.ddActive = initTracer.ddActive ∧
      rec0.span_id = initTracer.nextId ∧
      rec0.name = "job" ∧
      rec0.child_of = ddParentOf (get_current_span none ActiveOtel.invalid) ∧
      rec0.finished = false ∧
      rec0.error = false ∧
      rec0.recorded_exceptions = [] ∧
      w._ddspan.span_id = rec0.span_id ∧
      w.kind = SpanKind.client ∧
      w.attributes = some [("k", "v")] ∧
      w.start_time = some 9 ∧
      w.record_exception = false ∧
      w.set_status_on_exception = true) :=
  ⟨rfl, claim_C8_amended_single_unactivated_span initTracer none ActiveOtel.invalid "job"
    SpanKind.client (some [("k", "v")]) none (some 9) false true rfl⟩

theorem lookupSpan_updateSpan (j i : Nat) (f : DDSpanRec → DDSpanRec)
    (hf : ∀ r, (f r).span_id = r.span_id) (t : TracerSt) :
    lookupSpan j (updateSpan i f t)
      = Option.map (fun r => if r.span_id == i then f r else r) (lookupSpan j t) := by
  unfold lookupSpan updateSpan
  rw [List.find?_map]
  have hp : ((fun r => r.span_id == j) ∘ fun r => if r.span_id == i then f r else r)
      = fun r => r.span_id == j := by
    funext r
    by_cases h : r.span_id = i
    · simp [Function.comp, h, hf]
    · simp [Function.comp, h]
  rw [hp]

theorem lookupSpan_updateSpan_ne (j i : Nat) (f : DDSpanRec → DDSpanRec)
    (hf : ∀ r, (f r).span_id = r.span_id) (t : TracerSt) (hne : j ≠ i) :
    lookupSpan j (updateSpan i f t) = lookupSpan j t := by
  rw [lookupSpan_updateSpan j i f hf t]
  rcases hl : lookupSpan j t with _ | r
  · rfl
  · have hj : r.span_id = j := by simpa using List.find?_some hl
    have hni : (r.span_id == i) = false := by simp [hj, hne]
    simp only [Option.map]
    rw [hni]
    simp

theorem lookupSpan_updateSpan_eq (i : Nat) (f : DDSpanRec → DDSpanRec)
    (hf : ∀ r, (f r).span_id = r.span_id) (t : TracerSt) :
    lookupSpan i (updateSpan i f t) = Option.map f (lookupSpan i t) := by
  rw [lookupSpan_updateSpan i i f hf t]
  rcases hl : lookupSpan i t with _ | r
  · rfl
  · have hj : r.span_id = i := by simpa using List.find?_some hl
    simp [hj]

theorem find_none_of_lt (l : List DDSpanRec) (n : Nat) (h : ∀ r ∈ l, r.span_id < n) :
    l.find? (fun r => r.span_id == n) = none := by
  rw [List.find?_eq_none]
  intro r hr
  simpa using Nat.ne_of_lt (h r hr)

theorem find_append_ne (l : List DDSpanRec) (rec0 : DDSpanRec) (i : Nat)
    (hne : rec0.span_id ≠ i) :
    (l ++ [rec0]).find? (fun r => r.span_id == i) = l.find? (fun r => r.span_id == i) := by
  rw [List.find?_append]
  have hni : (rec0.span_id == i) = false := by simpa using hne
  rcases h : l.find? (fun r => r.span_id == i) with _ | r
  · rw [h]
    simp [List.find?, hni]
  · rw [h]
    rfl

theorem find_append_last (l : List DDSpanRec) (rec0 : DDSpanRec) (i : Nat)
    (hnone : l.find? (fun r => r.span_id == i) = none) (h0 : rec0.span_id = i) :
    (l ++ [rec0]).find? (fun r => r.span_id == i) = some rec0 := by
  rw [List.find?_append, hnone]
  simp [List.find?, h0]

theorem stateWF_update (s : BridgeState) (i : Nat) (f : DDSpanRec → DDSpanRec)
    (hf : ∀ r, (f r).span_id = r.span_id) (h : StateWF s) :
    StateWF { s with tracer := updateSpan i f s.tracer } := by
  intro r hr
  obtain ⟨r0, hr0, hmap⟩ := List.mem_map.1 hr
  subst hmap
  by_cases hc : r0.span_id = i
  · simpa [hc, hf] using h r0 hr0
  · simpa [hc] using h r0 hr0

theorem eventsOK_update (s : BridgeState) (i : Nat) (f : DDSpanRec → DDSpanRec)
    (hf : ∀ r, (f r).span_id = r.span_id) (hc : ∀ r, (f r).child_of = r.child_of)
    (h : EventsOK s) : EventsOK { s with tracer := updateSpan i f s.tracer } := by
  intro ev hev
  obtain ⟨r, hr, hco⟩ := h ev hev
  rw [show ({ s with tracer := updateSpan i f s.tracer } : BridgeState).tracer
        = updateSpan i f s.tracer from rfl,
      lookupSpan_updateSpan ev.1 i f hf, hr]
  refine ⟨_, rfl, ?_⟩
  by_cases hcase : r.span_id = i
  · simp [hcase, hc, hco]
  · simp [hcase, hco]

theorem on_exc_shape (w : Span) (re sse eoe : Bool) (e : Exc) (s2 : BridgeState) :
    (on_exc w re sse eoe e s2).stack = s2.stack ∧
    (on_exc w re sse eoe e s2).base = s2.base ∧
    (on_exc w re sse eoe e s2).events = s2.events ∧
    (on_exc w re sse eoe e s2).logs = s2.logs ∧
    (on_exc w re sse eoe e s2).tracer.nextId = s2.tracer.nextId := by
  cases re <;> cases sse <;> cases eoe <;> exact ⟨rfl, rfl, rfl, rfl, rfl⟩

theorem on_exc_wf (w : Span) (re sse eoe : Bool) (e : Exc) (s2 : BridgeState)
    (h : StateWF s2) : StateWF (on_exc w re sse eoe e s2) := by
  have u : ∀ (i : Nat) (f : DDSpanRec → DDSpanRec), (∀ r, (f r).span_id = r.span_id) →
      ∀ s : BridgeState, StateWF s → StateWF { s with tracer := updateSpan i f s.tracer } :=
    fun i f hf s hs => stateWF_update s i f hf hs
  cases re <;> cases sse <;> cases eoe
  · exact h
  · exact u _ fFinish (fun r => rfl) _ h
  · exact u _ fError (fun r => rfl) _ h
  · exact u _ fFinish (fun r => rfl) _ (u _ fError (fun r => rfl) _ h)
  · exact u _ (fRecord e) (fun r => rfl) _ h
  · exact u _ fFinish (fun r => rfl) _ (u _ (fRecord e) (fun r => rfl) _ h)
  · exact u _ fError (fun r => rfl) _ (u _ (fRecord e) (fun r => rfl) _ h)
  · exact u _ fFinish (fun r => rfl) _ (u _ fError (fun r => rfl) _ (u _ (fRecord e) (fun r => rfl) _ h))

theorem on_exc_events (w : Span) (re sse eoe : Bool) (e : Exc) (s2 : BridgeState)
    (h : EventsOK s2) : EventsOK (on_exc w re sse eoe e s2) := by
  have u : ∀ (i : Nat) (f : DDSpanRec → DDSpanRec), (∀ r, (f r).span_id = r.span_id) →
      (∀ r, (f r).child_of = r.child_of) →
      ∀ s : BridgeState, EventsOK s → EventsOK { s with tracer := updateSpan i f s.tracer } :=
    fun i f hf hc s hs => eventsOK_update s i f hf hc hs
  cases re <;> cases sse <;> cases eoe
  · exact h
  · exact u _ fFinish (fun r => rfl) (fun r => rfl) _ h
  · exact u _ fError (fun r => rfl) (fun r => rfl) _ h
  · exact u _ fFinish (fun r => rfl) (fun r => rfl) _ (u _ fError (fun r => rfl) (fun r => rfl) _ h)
  · exact u _ (fRecord e) (fun r => rfl) (fun r => rfl) _ h
  · exact u _ fFinish (fun r => rfl) (fun r => rfl) _ (u _ (fRecord e) (fun r => rfl) (fun r => rfl) _ h)
  · exact u _ fError (fun r => rfl) (fun r => rfl) _ (u _ (fRecord e) (fun r => rfl) (fun r => rfl) _ h)
  · exact u _ fFinish (fun r => rfl) (fun r => rfl) _
      (u _ fError (fun r => rfl) (fun r => rfl) _ (u _ (fRecord e) (fun r => rfl) (fun r => rfl) _ h))

theorem on_exc_lookup_ne (w : Span) (re sse eoe : Bool) (e : Exc) (s2 : BridgeState)
    (i : Nat) (hne : i ≠ w._ddspan.span_id) :
    lookupSpan i (on_exc w re sse eoe e s2).tracer = lookupSpan i s2.tracer := by
  have u : ∀ (f : DDSpanRec → DDSpanRec), (∀ r, (f r).span_id = r.span_id) →
      ∀ (t : TracerSt) (o : Option DDSpanRec), lookupSpan i t = o →
      lookupSpan i (updateSpan w._ddspan.span_id f t) = o :=
    fun f hf t o ho =>
      (lookupSpan_updateSpan_ne i w._ddspan.span_id f hf t hne).trans ho
  cases re <;> cases sse <;> cases eoe
  · rfl
  · exact u fFinish (fun r => rfl) _ _ rfl
  · exact u fError (fun r => rfl) _ _ rfl
  · exact u fFinish (fun r => rfl) _ _ (u fError (fun r => rfl) _ _ rfl)
  · exact u (fRecord e) (fun r => rfl) _ _ rfl
  · exact u fFinish (fun r => rfl) _ _ (u (fRecord e) (fun r => rfl) _ _ rfl)
  · exact u fError (fun r => rfl) _ _ (u (fRecord e) (fun r => rfl) _ _ rfl)
  · exact u fFinish (fun r => rfl) _ _ (u fError (fun r => rfl) _ _ (u (fRecord e) (fun r => rfl) _ _ rfl))

theorem on_exc_lookup_eq (w : Span) (re sse eoe : Bool) (e : Exc) (s2 : BridgeState)
    (r : DDSpanRec) (hr : lookupSpan w._ddspan.span_id s2.tracer = some r) :
    lookupSpan w._ddspan.span_id (on_exc w re sse eoe e s2).tracer
      = some { r with
          recorded_exceptions :=
            if re then r.recorded_exceptions ++ [e] else r.recorded_exceptions,
          error := if sse then true else r.error,
          finished := if eoe then true else r.finished } := by
  have q : ∀ (f : DDSpanRec → DDSpanRec), (∀ r, (f r).span_id = r.span_id) →
      ∀ (t : TracerSt) (r0 : DDSpanRec), lookupSpan w._ddspan.span_id t = some r0 →
      lookupSpan w._ddspan.span_id (updateSpan w._ddspan.span_id f t) = some (f r0) :=
    fun f hf t r0 h0 =>
      (lookupSpan_updateSpan_eq w._ddspan.span_id f hf t).trans (by rw [h0]; rfl)
  cases re <;> cases sse <;> cases eoe
  · exact hr
  · exact q fFinish (fun r => rfl) _ _ hr
  · exact q fError (fun r => rfl) _ _ hr
  · exact q fFinish (fun r => rfl) _ _ (q fError (fun r => rfl) _ _ hr)
  · exact q (fRecord e) (fun r => rfl) _ _ hr
  · exact q fFinish (fun r => rfl) _ _ (q (fRecord e) (fun r => rfl) _ _ hr)
  · exact q fError (fun r => rfl) _ _ (q (fRecord e) (fun r => rfl) _ _ hr)
  · exact q fFinish (fun r => rfl) _ _ (q fError (fun r => rfl) _ _ (q (fRecord e) (fun r => rfl) _ _ hr))

theorem on_ok_eq (w : Span) (eoe : Bool) (e : Exc) (s2 : BridgeState) :
    on_ok w eoe s2 = on_exc w false false eoe e s2 := rfl

theorem start_span_ok_facts (st : TracerSt) (context : Option OtelContext)
    (current : ActiveOtel) (name : String) (kind : SpanKind)
    (attributes : Option (List (String × String))) (links : Option (List Nat))
    (start_time : Option Int) (re sse : Bool) (w : Span) (ts' : TracerSt)
    (lgs : List String) (hwf : ∀ r ∈ st.spans, r.span_id < st.nextId)
    (hstart : Tracer.start_span st context current name kind attributes links start_time re sse
      = (Except.ok (w, ts'), lgs)) :
    w._ddspan.span_id = st.nextId ∧
    ts'.nextId = st.nextId + 1 ∧
    ts'.ddActive = st.ddActive ∧
    (∀ i, i < st.nextId → lookupSpan i ts' = lookupSpan i st) ∧
    ∃ rec0, ts'.spans = st.spans ++ [rec0] ∧
      rec0.span_id = st.nextId ∧
      rec0.child_of = ddParentOf (get_current_span context current) ∧
      rec0.finished = false ∧ rec0.error = false ∧ rec0.recorded_exceptions = [] ∧
      lookupSpan st.nextId ts' = some rec0 := by
  rcases hcur : get_current_span context current with _ | w0 | c0 | r0
  case unrecognized =>
    rw [Tracer.start_span, hcur] at hstart
    simp [resolve_dd_active] at hstart
  all_goals
    rw [Tracer.start_span, hcur] at hstart
    simp only [resolve_dd_active, ddtrace_start_span, Prod.mk.injEq, Except.ok.injEq]
      at hstart
    obtain ⟨⟨hw, hts⟩, hl⟩ := hstart
    subst hw
    subst hts
    subst hl
    refine ⟨rfl, rfl, rfl, ?_, ?_⟩
    · intro i hi
      show (st.spans ++ [_]).find? (fun r => r.span_id == i) = lookupSpan i st
      exact find_append_ne _ _ _ (Nat.ne_of_lt hi).symm
    · refine ⟨_, rfl, rfl, rfl, rfl, rfl, rfl, ?_⟩
      exact find_append_last _ _ _ (find_none_of_lt _ _ hwf) rfl

theorem exec_frame (p : Prog) :
    ∀ s : BridgeState, StateWF s →
      StateWF (exec p s).1 ∧
      s.tracer.nextId ≤ (exec p s).1.tracer.nextId ∧
      (exec p s).1.stack = s.stack ∧
      (exec p s).1.base = s.base ∧
      (∀ i, i < s.tracer.nextId → lookupSpan i (exec p s).1.tracer = lookupSpan i s.tracer) := by
  induction p with
  | skip =>
      intro s h
      exact ⟨h, Nat.le_refl _, rfl, rfl, fun i _ => rfl⟩
  | throw e =>
      intro s h
      exact ⟨h, Nat.le_refl _, rfl, rfl, fun i _ => rfl⟩
  | seq p q ihp ihq =>
      intro s h
      rcases hp : exec p s with ⟨s', exc⟩
      obtain ⟨h1, h2, h3, h4, h5⟩ := ihp s h
      rw [hp] at h1 h2 h3 h4 h5
      cases exc with
      | none =>
          obtain ⟨g1, g2, g3, g4, g5⟩ := ihq s' h1
          have hx : exec (Prog.seq p q) s = exec q s' := by
            simp only [exec, hp]
          rw [hx]
          refine ⟨g1, Nat.le_trans h2 g2, g3.trans h3, g4.trans h4, ?_⟩
          intro i hi
          rw [g5 i (Nat.lt_of_lt_of_le hi h2), h5 i hi]
      | some e =>
          have hx : exec (Prog.seq p q) s = (s', some e) := by
            simp only [exec, hp]
          rw [hx]
          exact ⟨h1, h2, h3, h4, h5⟩
  | nest name re sse eoe body ih =>
      intro s hwf
      rcases hstart : Tracer.start_span s.tracer none (currentActive s) name SpanKind.internal
          none none none re sse with ⟨res, lgs⟩
      cases res with
      | error pe =>
          have hx : exec (Prog.nest name re sse eoe body) s
              = ({ s with logs := s.logs ++ lgs }, some (Exc.py pe)) := by
            simp only [exec, Tracer.start_as_current_span, hstart]
          rw [hx]
          exact ⟨hwf, Nat.le_refl _, rfl, rfl, fun i _ => rfl⟩
      | ok pair =>
          rcases pair with ⟨w, ts'⟩
          obtain ⟨hid, hnext, hdd, hpres, rec0, hspans, hrid, hrco, hrfin, hrerr, hrrec, hlook⟩ :=
            start_span_ok_facts s.tracer none (currentActive s) name SpanKind.internal
              none none none re sse w ts' lgs hwf hstart
          have hwf1 : StateWF (push_active w (after_start s w ts' lgs)) := by
            intro r hr
            have hr' : r ∈ ts'.spans := hr
            rw [hspans] at hr'
            show r.span_id < ts'.nextId
            rw [hnext]
            rcases List.mem_append.1 hr' with hmem | hmem
            · exact Nat.lt_succ_of_lt (hwf r hmem)
            · obtain rfl := List.mem_singleton.1 hmem
              rw [hrid]
              exact Nat.lt_succ_self _
          obtain ⟨ihwf, ihnext, ihstack, ihbase, ihpres⟩ :=
            ih (push_active w (after_start s w ts' lgs)) hwf1
          rcases hb : exec body (push_active w (after_start s w ts' lgs)) with ⟨s2, exc⟩
          rw [hb] at ihwf ihnext ihstack ihbase ihpres
          have hlt : s.tracer.nextId < ts'.nextId := by
            rw [hnext]
            exact Nat.lt_succ_self _
          cases exc with
          | none =>
              have hx : exec (Prog.nest name re sse eoe body) s
                  = ({ on_ok w eoe s2 with
                        stack := (after_start s w ts' lgs).stack,
                        base := (after_start s w ts' lgs).base }, none) := by
                simp only [exec, Tracer.start_as_current_span, hstart, use_span, hb]
              rw [hx]
              refine ⟨?_, ?_, rfl, rfl, ?_⟩
              · exact on_exc_wf w false false eoe (Exc.user 0) s2 ihwf
              · show s.tracer.nextId ≤ (on_exc w false false eoe (Exc.user 0) s2).tracer.nextId
                rw [(on_exc_shape w false false eoe (Exc.user 0) s2).2.2.2.2]
                exact Nat.le_trans (Nat.le_of_lt hlt) ihnext
              · intro i hi
                show lookupSpan i (on_exc w false false eoe (Exc.user 0) s2).tracer
                    = lookupSpan i s.tracer
                rw [on_exc_lookup_ne w false false eoe (Exc.user 0) s2 i
                    (by rw [hid]; exact Nat.ne_of_lt hi)]
                rw [show lookupSpan i s2.tracer = lookupSpan i ts' from
                    ihpres i (Nat.lt_trans hi hlt)]
                exact hpres i hi
          | some e =>
              have hx : exec (Prog.nest name re sse eoe body) s
                  = ({ on_exc w re sse eoe e s2 with
                        stack := (after_start s w ts' lgs).stack,
                        base := (after_start s w ts' lgs).base }, some e) := by
                simp only [exec, Tracer.start_as_current_span, hstart, use_span, hb]
              rw [hx]
              refine ⟨?_, ?_, rfl, rfl, ?_⟩
              · exact on_exc_wf w re sse eoe e s2 ihwf
              · show s.tracer.nextId ≤ (on_exc w re sse eoe e s2).tracer.nextId
                rw [(on_exc_shape w re sse eoe e s2).2.2.2.2]
                exact Nat.le_trans (Nat.le_of_lt hlt) ihnext
              · intro i hi
                show lookupSpan i (on_exc w re sse eoe e s2).tracer = lookupSpan i s.tracer
                rw [on_exc_lookup_ne w re sse eoe e s2 i
                    (by rw [hid]; exact Nat.ne_of_lt hi)]
                rw [show lookupSpan i s2.tracer = lookupSpan i ts' from
                    ihpres i (Nat.lt_trans hi hlt)]
                exact hpres i hi

theorem exec_events (p : Prog) :
    ∀ s : BridgeState, StateWF s → EventsOK s → EventsOK (exec p s).1 := by
  induction p with
  | skip => intro s _ hev; exact hev
  | throw e => intro s _ hev; exact hev
  | seq p q ihp ihq =>
      intro s hwf hev
      rcases hp : exec p s with ⟨s', exc⟩
      have hwf' : StateWF s' := by
        have := (exec_frame p s hwf).1
        rw [hp] at this
        exact this
      have hev' : EventsOK s' := by
        have := ihp s hwf hev
        rw [hp] at this
        exact this
      cases exc with
      | none =>
          have hx : exec (Prog.seq p q) s = exec q s' := by
            simp only [exec, hp]
          rw [hx]
          exact ihq s' hwf' hev'
      | some e =>
          have hx : exec (Prog.seq p q) s = (s', some e) := by
            simp only [exec, hp]
          rw [hx]
          exact hev'
  | nest name re sse eoe body ih =>
      intro s hwf hev
      rcases hstart : Tracer.start_span s.tracer none (currentActive s) name SpanKind.internal
          none none none re sse with ⟨res, lgs⟩
      cases res with
      | error pe =>
          have hx : exec (Prog.nest name re sse eoe body) s
              = ({ s with logs := s.logs ++ lgs }, some (Exc.py pe)) := by
            simp only [exec, Tracer.start_as_current_span, hstart]
          rw [hx]
          exact hev
      | ok pair =>
          rcases pair with ⟨w, ts'⟩
          obtain ⟨hid, hnext, hdd, hpres, rec0, hspans, hrid, hrco, hrfin, hrerr, hrrec, hlook⟩ :=
            start_span_ok_facts s.tracer none (currentActive s) name SpanKind.internal
              none none none re sse w ts' lgs hwf hstart
          have hwf1 : StateWF (push_active w (after_start s w ts' lgs)) := by
            intro r hr
            have hr' : r ∈ ts'.spans := hr
            rw [hspans] at hr'
            show r.span_id < ts'.nextId
            rw [hnext]
            rcases List.mem_append.1 hr' with hmem | hmem
            · exact Nat.lt_succ_of_lt (hwf r hmem)
            · obtain rfl := List.mem_singleton.1 hmem
              rw [hrid]
              exact Nat.lt_succ_self _
          have hev1 : EventsOK (push_active w (after_start s w ts' lgs)) := by
            intro ev hevm
            have hevm' : ev ∈ s.events ++ [(w._ddspan.span_id, currentActive s)] := hevm
            rcases List.mem_append.1 hevm' with hmem | hmem
            · obtain ⟨r, hr, hco⟩ := hev ev hmem
              have hrs : r ∈ s.tracer.spans := List.mem_of_find?_eq_some hr
              have hri : r.span_id = ev.1 := by simpa using List.find?_some hr
              have hlt : ev.1 < s.tracer.nextId := hri ▸ hwf r hrs
              refine ⟨r, ?_, hco⟩
              show lookupSpan ev.1 ts' = some r
              rw [hpres ev.1 hlt]
              exact hr
            · obtain rfl := List.mem_singleton.1 hmem
              refine ⟨rec0, ?_, ?_⟩
              · show lookupSpan w._ddspan.span_id ts' = some rec0
                rw [hid]
                exact hlook
              · exact hrco
          have ihev := ih (push_active w (after_start s w ts' lgs)) hwf1 hev1
          rcases hb : exec body (push_active w (after_start s w ts' lgs)) with ⟨s2, exc⟩
          rw [hb] at ihev
          cases exc with
          | none =>
              have hx : exec (Prog.nest name re sse eoe body) s
                  = ({ on_ok w eoe s2 with
                        stack := (after_start s w ts' lgs).stack,
                        base := (after_start s w ts' lgs).base }, none) := by
                simp only [exec, Tracer.start_as_current_span, hstart, use_span, hb]
              rw [hx]
              exact on_exc_events w false false eoe (Exc.user 0) s2 ihev
          | some e =>
              have hx : exec (Prog.nest name re sse eoe body) s
                  = ({ on_exc w re sse eoe e s2 with
                        stack := (after_start s w ts' lgs).stack,
                        base := (after_start s w ts' lgs).base }, some e) := by
                simp only [exec, Tracer.start_as_current_span, hstart, use_span, hb]
              rw [hx]
              exact on_exc_events w re sse eoe e s2 ihev

theorem pushed_wf (s : BridgeState) (w : Span) (ts' : TracerSt) (lgs : List String)
    (rec0 : DDSpanRec) (hwf : StateWF s) (hnext : ts'.nextId = s.tracer.nextId + 1)
    (hspans : ts'.spans = s.tracer.spans ++ [rec0]) (hrid : rec0.span_id = s.tracer.nextId) :
    StateWF (push_active w (after_start s w ts' lgs)) := by
  intro r hr
  have hr' : r ∈ ts'.spans := hr
  rw [hspans] at hr'
  show r.span_id < ts'.nextId
  rw [hnext]
  rcases List.mem_append.1 hr' with hmem | hmem
  · exact Nat.lt_succ_of_lt (hwf r hmem)
  · obtain rfl := List.mem_singleton.1 hmem
    rw [hrid]
    exact Nat.lt_succ_self _

/-- C2: for every program of nested `start_as_current_span` scopes run in a
well-formed execution context, (a) after the program the active-span stack
and base are exactly what they were before - so every scope exit restores
the span that was active when it was entered, on normal and exceptional
paths alike - and (b) every span creation event recorded during execution
has its stored native parent equal to the parent derived from the span
that was active immediately before the creation (the enclosing bridge
span's own native span, or none at top level). -/
theorem claim_C2_lifo_nesting_and_restoration (p : Prog) (s : BridgeState)
    (hwf : StateWF s) (hev : EventsOK s) :
    ((exec p s).1.stack = s.stack ∧ (exec p s).1.base = s.base) ∧
    EventsOK (exec p s).1 := by
  obtain ⟨_, _, h3, h4, _⟩ := exec_frame p s hwf
  exact ⟨⟨h3, h4⟩, exec_events p s hwf hev⟩

/-- C2 witness: two nested scopes from the initial context; the stack and
base are restored and all creation events are correctly parented. -/
theorem claim_C2_witness :
    ((exec (Prog.nest "outer" true true true (Prog.nest "inner" true true true Prog.skip))
        initBridgeState).1.stack = initBridgeState.stack ∧
     (exec (Prog.nest "outer" true true true (Prog.nest "inner" true true true Prog.skip))
        initBridgeState).1.base = initBridgeState.base) ∧
    EventsOK (exec (Prog.nest "outer" true true true (Prog.nest "inner" true true true Prog.skip))
        initBridgeState).1 :=
  claim_C2_lifo_nesting_and_restoration
    (Prog.nest "outer" true true true (Prog.nest "inner" true true true Prog.skip))
    initBridgeState
    (fun r hr => absurd hr (List.not_mem_nil r))
    (fun ev hev => absurd hev (List.not_mem_nil ev))

/-- C4: a body that raises inside `start_as_current_span` results in the
caller observing the same exception, and before it propagates: the
exception is attached to the new span's native record exactly when
`record_exception` is set, the error status is set exactly when
`set_status_on_exception` is set, the native span is finished exactly when
`end_on_exit` is set, and the previously active stack and base are
restored. -/
theorem claim_C4_exception_propagation_and_bookkeeping (s : BridgeState) (name : String)
    (re sse eoe : Bool) (p : Prog) (e : Nat) (w : Span) (ts' : TracerSt) (lgs : List String)
    (hwf : StateWF s)
    (hstart : Tracer.start_span s.tracer none (currentActive s) name SpanKind.internal
        none none none re sse = (Except.ok (w, ts'), lgs))
    (hbody : (exec p (push_active w (after_start s w ts' lgs))).2 = some (Exc.user e)) :
    (exec (Prog.nest name re sse eoe p) s).2 = some (Exc.user e) ∧
    (exec (Prog.nest name re sse eoe p) s).1.stack = s.stack ∧
    (exec (Prog.nest name re sse eoe p) s).1.base = s.base ∧
    ∃ rec1, lookupSpan w._ddspan.span_id (exec (Prog.nest name re sse eoe p) s).1.tracer
        = some rec1 ∧
      rec1.recorded_exceptions = (if re then [Exc.user e] else []) ∧
      rec1.error = sse ∧
      rec1.finished = eoe := by
  obtain ⟨hid, hnext, hdd, hpres, rec0, hspans, hrid, hrco, hrfin, hrerr, hrrec, hlook⟩ :=
    start_span_ok_facts s.tracer none (currentActive s) name SpanKind.internal
      none none none re sse w ts' lgs hwf hstart
  have hwf1 := pushed_wf s w ts' lgs rec0 hwf hnext hspans hrid
  obtain ⟨fwf, fnext, fstack, fbase, fpres⟩ :=
    exec_frame p (push_active w (after_start s w ts' lgs)) hwf1
  rcases hb : exec p (push_active w (after_start s w ts' lgs)) with ⟨s2, exc⟩
  rw [hb] at fwf fnext fstack fbase fpres hbody
  cases exc with
  | none => simp at hbody
  | some e' =>
      have he' : e' = Exc.user e := by simpa using hbody
      subst he'
      have hx : exec (Prog.nest name re sse eoe p) s
          = ({ on_exc w re sse eoe (Exc.user e) s2 with
                stack := (after_start s w ts' lgs).stack,
                base := (after_start s w ts' lgs).base }, some (Exc.user e)) := by
        simp only [exec, Tracer.start_as_current_span, hstart, use_span, hb]
      rw [hx]
      refine ⟨rfl, rfl, rfl, ?_⟩
      have hwid : w._ddspan.span_id < ts'.nextId := by
        rw [hid, hnext]
        exact Nat.lt_succ_self _
      have hl2 : lookupSpan w._ddspan.span_id s2.tracer = some rec0 := by
        rw [show lookupSpan w._ddspan.span_id s2.tracer = lookupSpan w._ddspan.span_id ts' from
            fpres w._ddspan.span_id hwid]
        rw [hid]
        exact hlook
      refine ⟨_, on_exc_lookup_eq w re sse eoe (Exc.user e) s2 rec0 hl2, ?_, ?_, ?_⟩
      · show (if re then rec0.recorded_exceptions ++ [Exc.user e] else rec0.recorded_exceptions)
            = if re then [Exc.user e] else []
        rw [hrrec]
        cases re <;> simp
      · show (if sse then true else rec0.error) = sse
        rw [hrerr]
        cases sse <;> rfl
      · show (if eoe then true else rec0.finished) = eoe
        rw [hrfin]
        cases eoe <;> rfl

/-- C4 witness: a scope whose body raises exception 7 with all three flags
set, from the initial context: the caller sees exception 7, the context is
restored, and the span's record carries the exception, the error status
and the finish flag. -/
theorem claim_C4_witness :
    (exec (Prog.nest "scope" true true true (Prog.throw 7)) initBridgeState).2
        = some (Exc.user 7) ∧
    (exec (Prog.nest "scope" true true true (Prog.throw 7)) initBridgeState).1.stack
        = initBridgeState.stack ∧
    (exec (Prog.nest "scope" true true true (Prog.throw 7)) initBridgeState).1.base
        = initBridgeState.base ∧
    ∃ rec1, lookupSpan 1
        (exec (Prog.nest "scope" true true true (Prog.throw 7)) initBridgeState).1.tracer
        = some rec1 ∧
      rec1.recorded_exceptions = [Exc.user 7] ∧
      rec1.error = true ∧
      rec1.finished = true :=
  claim_C4_exception_propagation_and_bookkeeping initBridgeState "scope" true true true
    (Prog.throw 7) 7
    (Span.mk (DDSpan.mk 1 1) SpanKind.internal none none true true)
    (TracerSt.mk 2 [DDSpanRec.mk 1 1 "scope" none false false []] none) []
    (fun r hr => absurd hr (List.not_mem_nil r)) rfl rfl
